import Mathlib

/-!
Verification of the state-translation and caching layer of the
`moneta-homeassistant-integration` repository (component
`custom_components/moneta_thermostat_evo`).

The Python sources are shallowly embedded as Lean definitions:
  * `api.py`            → the `ApiClient` state and the `get_state` /
                          `_set_request` / `set_*` operations.  Network I/O is
                          made explicit: a full-state fetch outcome is an
                          `Option ThermostatModel` argument, a set-request
                          exchange is an `httpOk : Bool` plus the decoded JSON
                          body, and every write returns the payload it sent
                          (`none` when no network call was issued).
  * `climate.py` / `sensor.py` / `number.py`
                        → pure functions over the coordinator data.
  * `text_schedule.py`  → the schedule reconciliation functions.

Temperatures and wall-clock times are modelled as rationals (Python floats
and datetimes), timestamps from `time.time()` as naturals.

The component's own `const.py` and `models.py` are not part of the source
tree; the constants below mirror the sibling component
`custom_components/moneta_thermostat/const.py` (identical role, and the spec
states the same values), and the data-model structures mirror its
`models.py` plus the fields the evo component reads from its models module
(`holiday_active`, `calendar` with `Band`/`DaySchedule`), modelled from the
spec's data-model section.
-/

namespace Moneta

/-! ## Constants (const.py) -/

/-- Hard floor for the polling interval, in minutes.
Modelled from the spec: "hard floor 5 minutes"; identical to
`MIN_POLLING_INTERVAL = 5` in the sibling component's `const.py`
(the evo component's `const.py` is absent from the source tree). -/
def MIN_POLLING_INTERVAL : Int := 5

def REQUEST_TYPE_FULL : String := "full_bo"
def REQUEST_TYPE_SETPOINT : String := "post_bo_setpoint"

def ZONE_MODE_AUTO : String := "auto"
def ZONE_MODE_OFF : String := "off"
def ZONE_MODE_MANUAL : String := "manual"
def ZONE_MODE_PARTY : String := "party"
def ZONE_MODE_HOLIDAY : String := "holiday"

def SEASON_WINTER : String := "winter"
def SEASON_SUMMER : String := "summer"

def SETPOINT_ABSENT : String := "absent"
def SETPOINT_PRESENT : String := "present"
def SETPOINT_EFFECTIVE : String := "effective"

def DEFAULT_ZONE_ID : String := "1"

/-- Home Assistant preset constants used by climate.py:
PRESET_HOME / PRESET_BOOST / PRESET_AWAY. -/
def PRESET_HOME : String := "home"

def PRESET_BOOST : String := "boost"

def PRESET_AWAY : String := "away"

/-- Fixed weekday order used by text_schedule.py and sensor.py. -/
def DAYS_OF_WEEK : List String := ["MON", "TUE", "WED", "THU", "FRI", "SAT", "SUN"]

/-! ## Data model (models.py) -/

/-- A (type, temperature) setpoint pair. -/
structure Setpoint where
  type : String
  temperature : ℚ
deriving DecidableEq, Repr

/-- One time band of a weekly schedule.
Modelled from the spec: "Band (id, setpoint-type tag, start hour/min,
end hour/min)"; the evo `models.py` (absent from the source tree) stores
the four time fields flat (`b.start_hour` … in sensor.py). -/
structure Band where
  id : Int
  setpointType : String
  start_hour : Nat
  start_min : Nat
  end_hour : Nat
  end_min : Nat
deriving DecidableEq, Repr

/-- The bands of one weekday.
Modelled from the spec: "each DaySchedule holds zero or more ... Bands". -/
structure DaySchedule where
  day : String
  bands : List Band
deriving DecidableEq, Repr

/-- A weekly calendar: a step (minutes) and a list of DaySchedules.
Modelled from the spec: "Calendar: step (15 or 30 minutes), ordered list of
7 DaySchedules". -/
structure Calendar where
  step : Int
  schedule : List DaySchedule
deriving DecidableEq, Repr

/-- One thermostat zone (models.py `Zone`, plus the `holiday_active` and
`calendar` fields the evo component reads, modelled from the spec's
data-model section). -/
structure Zone where
  id : String
  temperature : ℚ
  humidity : Option ℚ
  at_home : Bool
  at_home_for_scheduler : Bool
  block_humidity : Bool
  effective_setpoint : ℚ
  setpoints : List Setpoint
  mode : String
  setpoint_selected : String
  expiration : Option Int
  current_manual_temperature : ℚ
  holiday_active : Bool
  calendar : Option Calendar
deriving DecidableEq, Repr

/-- Season (models.py `Season`, limits field elided as it is never read). -/
structure Season where
  id : String
deriving DecidableEq, Repr

/-- Global limits (models.py `Limits`). -/
structure Limits where
  steps : Int
  step_value : ℚ
  present_max_temp : ℚ
  present_min_temp : ℚ
  absent_max_temp : ℚ
  absent_min_temp : ℚ
  present_is_unique : Bool
  absent_is_unique : Bool
deriving DecidableEq, Repr

/-- Manual-mode limits (models.py `ManualLimits`). -/
structure ManualLimits where
  min_temp : ℚ
  max_temp : ℚ
  steps : Int
  step_value : ℚ
deriving DecidableEq, Repr

/-- Full thermostat snapshot (models.py `ThermostatModel`). -/
structure ThermostatModel where
  provider : String
  unit_code : String
  measure_unit : String
  external_temperature : ℚ
  category : String
  season : Season
  zones : List Zone
  limits : Limits
  manual_limits : ManualLimits
deriving DecidableEq, Repr

/-! ## API client state (api.py `MonetaApiClient`) -/

/-- The mutable fields of `MonetaApiClient`: the effective polling interval
(already floored by `__init__`), the cached snapshot, its expiration time
(minutes, `none` = invalidated / never fetched) and the in-flight flag. -/
structure ApiClient where
  polling_interval : Int
  cached_data : Option ThermostatModel
  expiration : Option ℚ
  pending : Bool
deriving DecidableEq, Repr

/-- `MonetaApiClient.__init__`:
`self._polling_interval = max(polling_interval_minutes, MIN_POLLING_INTERVAL)`,
empty cache, no expiration, not pending. -/
def init_client (polling_interval_minutes : Int) : ApiClient :=
  { polling_interval := max polling_interval_minutes MIN_POLLING_INTERVAL
    cached_data := none
    expiration := none
    pending := false }

/-- `MonetaApiClient._invalidate_cache`: `self._expiration = None`. -/
def invalidate_cache (c : ApiClient) : ApiClient :=
  { c with expiration := none }

/-- `MonetaApiClient.get_zone_by_id`: first zone of the cached snapshot with
the given id, `None` when there is no cached snapshot or no match. -/
def get_zone_by_id (c : ApiClient) (zone_id : String) : Option Zone :=
  match c.cached_data with
  | none => none
  | some data => data.zones.find? (fun z => z.id == zone_id)

/-- `MonetaApiClient.get_setpoint_temperature`: temperature of the first
setpoint of the given type in the zone, `None` when absent. -/
def get_setpoint_temperature (zone : Zone) (setpoint_type : String) : Option ℚ :=
  (zone.setpoints.find? (fun s => s.type == setpoint_type)).map Setpoint.temperature

/-- Python `x or default` on an optional float: `None` and `0.0` are falsy,
so both fall back to the default (used as
`self.get_setpoint_temperature(...) or 21.0`). -/
def or_default (x : Option ℚ) (default : ℚ) : ℚ :=
  match x with
  | none => default
  | some v => if v = 0 then default else v

/-! ## get_state (api.py) with the cache guard and in-flight flag

`datetime.now()` is the `now` argument; the outcome of the full_bo
`_api_post` exchange is abstracted as an
`Option ThermostatModel` argument: `some m` when the call returned a truthy
body whose first element parsed to `m`, `none` when it returned `None`, a
falsy body, or parsing raised (the `except` branch).  The call is split at
its single await point: `get_state_begin` is the guard up to setting the
in-flight flag, `get_state_finish` the continuation after the network call
returns, so that overlapping calls can be interleaved. -/

/-- Result of a `get_state` call: the client state afterwards, the returned
snapshot, and whether an outbound full-state fetch was performed. -/
structure GetStateResult where
  client : ApiClient
  result : Option ThermostatModel
  fetched : Bool
deriving DecidableEq, Repr

/-- The guard `if self._pending or (self._expiration and now < self._expiration)`
(a `None` expiration is falsy).  When the guard fails, `self._pending = True`
is set and the fetch proceeds (second component `true`). -/
def get_state_begin (c : ApiClient) (now : ℚ) : ApiClient × Bool :=
  if c.pending || (match c.expiration with
                   | some e => decide (now < e)
                   | none => false) then
    (c, false)
  else
    ({ c with pending := true }, true)

/-- Continuation of `get_state` after `_api_post` returned: on a truthy
parsed body, cache it and set `expiration = now + timedelta(minutes=
self._polling_interval)`; in all cases `finally: self._pending = False`,
and the (possibly updated) `self._cached_data` is returned. -/
def get_state_finish (c : ApiClient) (now : ℚ) (fetch : Option ThermostatModel) :
    GetStateResult :=
  match fetch with
  | some m =>
      { client := { c with cached_data := some m
                           expiration := some (now + (c.polling_interval : ℚ))
                           pending := false }
        result := some m
        fetched := true }
  | none =>
      { client := { c with pending := false }
        result := c.cached_data
        fetched := true }

/-- `MonetaApiClient.get_state`, run to completion without interleaving. -/
def get_state (c : ApiClient) (now : ℚ) (fetch : Option ThermostatModel) :
    GetStateResult :=
  match get_state_begin c now with
  | (c1, true) => get_state_finish c1 now fetch
  | (c1, false) => { client := c1, result := c1.cached_data, fetched := false }

/-! ## Write path (api.py `_api_post`, `_set_request`, `set_*`)

A set-request network exchange is abstracted by two oracle arguments:
`httpOk : Bool` (true iff the POST completed without `aiohttp.ClientError`
and with HTTP status 200) and the decoded JSON body. -/

/-- One element of a JSON-array response body.  `success` / `error` model
`first.get("success", False)` and `first.get("error", "")`: `none` means the
key is missing; a present `error` string is Python-truthy iff non-empty. -/
structure RespElem where
  success : Option Bool
  error : Option String
deriving DecidableEq, Repr

/-- Python truthiness of `elem.get("error")`. -/
def err_truthy (e : RespElem) : Bool :=
  match e.error with
  | some s => s != ""
  | none => false

/-- Decoded JSON body of a set-request response: `null`, an array, or any
other (truthy, non-list) JSON value such as an object. -/
inductive JsonResp where
  | null : JsonResp
  | arr : List RespElem → JsonResp
  | other : JsonResp
deriving DecidableEq, Repr

/-- `MonetaApiClient._api_post` (for a set request): `None` on transport
error or non-200 status; otherwise `None` when the body is `None` or is a
non-empty list whose first element has a truthy `error`; otherwise the body. -/
def api_post (httpOk : Bool) (body : JsonResp) : Option JsonResp :=
  if !httpOk then none
  else
    match body with
    | JsonResp.null => none
    | JsonResp.arr (e :: es) => if err_truthy e then none else some (JsonResp.arr (e :: es))
    | JsonResp.arr [] => some (JsonResp.arr [])
    | JsonResp.other => some JsonResp.other

/-- `MonetaApiClient._set_request`: returns `False` when `_api_post` gave
`None`, or when the body is a non-empty list whose first element has a falsy
`success` AND a truthy `error`; in every other case it invalidates the cache
and returns `True`. -/
def set_request (c : ApiClient) (httpOk : Bool) (body : JsonResp) : Bool × ApiClient :=
  match api_post httpOk body with
  | none => (false, c)
  | some r =>
      match r with
      | JsonResp.arr (first :: _) =>
          let success := first.success.getD false
          if !success && err_truthy first then (false, c)
          else (true, invalidate_cache c)
      | _ => (true, invalidate_cache c)

/-- Payload entry for one zone of a set request; `none` fields model JSON
keys that the particular write does not include. -/
structure ZonePayload where
  id : String
  mode : Option String := none
  expiration : Option Int := none
  currentManualTemperature : Option ℚ := none
  setpoints : Option (List Setpoint) := none
  calendar : Option Calendar := none
deriving DecidableEq, Repr

/-- A full set-request payload. -/
structure SetPayload where
  request_type : String
  unitCode : String
  category : String
  zones : List ZonePayload
deriving DecidableEq, Repr

/-- Result of a write operation: its boolean return value, the client state
afterwards, and the payload sent (`none` = no network call was issued). -/
structure WriteResult where
  success : Bool
  client : ApiClient
  sent : Option SetPayload
deriving DecidableEq, Repr

/-- Build-payload-then-`return await self._set_request(payload)`. -/
def run_set (c : ApiClient) (payload : SetPayload) (httpOk : Bool) (body : JsonResp) :
    WriteResult :=
  let r := set_request c httpOk body
  { success := r.1, client := r.2, sent := some payload }

/-- The payload `set_off` builds: every cached zone with mode off,
expiration 0, one effective setpoint at the zone's temperature + 1. -/
def set_off_payload (data : ThermostatModel) : SetPayload :=
  { request_type := REQUEST_TYPE_SETPOINT
    unitCode := data.unit_code
    category := data.category
    zones := data.zones.map (fun zone =>
      { id := zone.id
        mode := some ZONE_MODE_OFF
        expiration := some 0
        setpoints := some [⟨SETPOINT_EFFECTIVE, zone.temperature + 1⟩] }) }

/-- `MonetaApiClient.set_off`. -/
def set_off (c : ApiClient) (httpOk : Bool) (body : JsonResp) : WriteResult :=
  match c.cached_data with
  | none => { success := false, client := c, sent := none }
  | some data => run_set c (set_off_payload data) httpOk body

/-- `MonetaApiClient.set_auto`: every cached zone with mode auto,
expiration 0. -/
def set_auto (c : ApiClient) (httpOk : Bool) (body : JsonResp) : WriteResult :=
  match c.cached_data with
  | none => { success := false, client := c, sent := none }
  | some data =>
      run_set c
        { request_type := REQUEST_TYPE_SETPOINT
          unitCode := data.unit_code
          category := data.category
          zones := data.zones.map (fun zone =>
            { id := zone.id, mode := some ZONE_MODE_AUTO, expiration := some 0 }) }
        httpOk body

/-- `MonetaApiClient.set_heat_cool`: every cached zone to manual mode at its
present setpoint (`or 21.0` fallback, Python truthiness). -/
def set_heat_cool (c : ApiClient) (httpOk : Bool) (body : JsonResp) : WriteResult :=
  match c.cached_data with
  | none => { success := false, client := c, sent := none }
  | some data =>
      run_set c
        { request_type := REQUEST_TYPE_SETPOINT
          unitCode := data.unit_code
          category := data.category
          zones := data.zones.map (fun zone =>
            let present_temp := or_default (get_setpoint_temperature zone SETPOINT_PRESENT) 21
            { id := zone.id
              mode := some ZONE_MODE_MANUAL
              currentManualTemperature := some present_temp
              setpoints := some [⟨SETPOINT_EFFECTIVE, present_temp⟩] }) }
        httpOk body

/-- The expiration timestamp `set_party` computes from `time.time()`
(all quantities non-negative, so Nat division/subtraction agree with
Python's floor semantics). -/
def party_expiration (now_ts : Nat) : Nat :=
  let now_rounded := ((now_ts / 60) + 1) * 60
  let remainder := now_rounded % 7200
  let next_valid_base :=
    if remainder ≤ 2220 then now_rounded - remainder + 2220
    else now_rounded - remainder + 7200 + 2220
  let expiration_ts := next_valid_base + 7200
  let minutes_from_now := (expiration_ts - now_ts) / 60
  if minutes_from_now < 60 then expiration_ts + 7200 else expiration_ts

/-- The payload `set_party` builds.  The zone list is
`[z for z in zones if z.id == zone_id] if zone_id else zones`:
a `None` or empty-string id (Python-falsy) keeps all zones. -/
def set_party_payload (data : ThermostatModel) (zone_id : Option String) (now_ts : Nat) :
    SetPayload :=
  let expiration_ts := party_expiration now_ts
  let zones :=
    match zone_id with
    | some zid => if zid = "" then data.zones else data.zones.filter (fun z => z.id == zid)
    | none => data.zones
  { request_type := REQUEST_TYPE_SETPOINT
    unitCode := data.unit_code
    category := data.category
    zones := zones.map (fun zone =>
      { id := zone.id
        mode := some ZONE_MODE_PARTY
        expiration := some expiration_ts
        currentManualTemperature :=
          some (or_default (get_setpoint_temperature zone SETPOINT_PRESENT) 21) }) }

/-- `MonetaApiClient.set_party`.  The `hours` argument is ignored: the code
overwrites it with the fixed value 4 before use. -/
def set_party (c : ApiClient) (zone_id : Option String) (hours : Nat) (now_ts : Nat)
    (httpOk : Bool) (body : JsonResp) : WriteResult :=
  match c.cached_data with
  | none => { success := false, client := c, sent := none }
  | some data =>
      let _ := hours
      run_set c (set_party_payload data zone_id now_ts) httpOk body

/-- `MonetaApiClient.set_frost_protection`: every cached zone to off with one
effective setpoint at the zone's absent setpoint (`or 7.0` fallback). -/
def set_frost_protection (c : ApiClient) (httpOk : Bool) (body : JsonResp) : WriteResult :=
  match c.cached_data with
  | none => { success := false, client := c, sent := none }
  | some data =>
      run_set c
        { request_type := REQUEST_TYPE_SETPOINT
          unitCode := data.unit_code
          category := data.category
          zones := data.zones.map (fun zone =>
            let frost_temp := or_default (get_setpoint_temperature zone SETPOINT_ABSENT) 7
            { id := zone.id
              mode := some ZONE_MODE_OFF
              expiration := some 0
              setpoints := some [⟨SETPOINT_EFFECTIVE, frost_temp⟩] }) }
        httpOk body

/-- The expiration timestamp `set_holiday` computes from `time.time()`. -/
def holiday_expiration (now_ts : Nat) : Nat :=
  let base := ((now_ts / 2000000) + 1) * 2000000
  if (base / 1000000) % 10 = 0 ∨ (base / 1000000) % 10 = 2 then base
  else base + 2000000

/-- `MonetaApiClient.set_holiday`: every cached zone to holiday mode with
the computed expiration.  The `days` argument is never used by the code. -/
def set_holiday (c : ApiClient) (days : Nat) (now_ts : Nat)
    (httpOk : Bool) (body : JsonResp) : WriteResult :=
  match c.cached_data with
  | none => { success := false, client := c, sent := none }
  | some data =>
      let _ := days
      run_set c
        { request_type := REQUEST_TYPE_SETPOINT
          unitCode := data.unit_code
          category := data.category
          zones := data.zones.map (fun zone =>
            { id := zone.id
              mode := some ZONE_MODE_HOLIDAY
              expiration := some (holiday_expiration now_ts) }) }
        httpOk body

/-- `MonetaApiClient.set_manual_temperature`: sends a single-zone payload for
the given id with manual mode — the id is not checked against the cache. -/
def set_manual_temperature (c : ApiClient) (zone_id : String) (temperature : ℚ)
    (httpOk : Bool) (body : JsonResp) : WriteResult :=
  match c.cached_data with
  | none => { success := false, client := c, sent := none }
  | some data =>
      run_set c
        { request_type := REQUEST_TYPE_SETPOINT
          unitCode := data.unit_code
          category := data.category
          zones := [{ id := zone_id
                      mode := some ZONE_MODE_MANUAL
                      currentManualTemperature := some temperature }] }
        httpOk body

/-- Deduplication test for the present value:
`present_temperature is None or get_setpoint_temperature(...) == present`. -/
def skip_present (zone : Zone) (present_temperature : Option ℚ) : Bool :=
  match present_temperature with
  | none => true
  | some p => decide (get_setpoint_temperature zone SETPOINT_PRESENT = some p)

/-- Deduplication test for the absent value. -/
def skip_absent (zone : Zone) (absent_temperature : Option ℚ) : Bool :=
  match absent_temperature with
  | none => true
  | some a => decide (get_setpoint_temperature zone SETPOINT_ABSENT = some a)

/-- The setpoint list `set_present_absent_temperature` builds: the present
entry when not skipped, then the absent entry when not skipped. -/
def pa_setpoints (zone : Zone) (present_temperature absent_temperature : Option ℚ) :
    List Setpoint :=
  (match present_temperature with
   | some p => if skip_present zone (some p) then [] else [⟨SETPOINT_PRESENT, p⟩]
   | none => []) ++
  (match absent_temperature with
   | some a => if skip_absent zone (some a) then [] else [⟨SETPOINT_ABSENT, a⟩]
   | none => [])

/-- `MonetaApiClient.set_present_absent_temperature`: fails without a call
when there is no cached snapshot or the zone id is unknown; returns success
without a call when the deduplicated setpoint list is empty; otherwise sends
a single-zone payload with exactly that setpoint list. -/
def set_present_absent_temperature (c : ApiClient) (zone_id : String)
    (present_temperature absent_temperature : Option ℚ)
    (httpOk : Bool) (body : JsonResp) : WriteResult :=
  match c.cached_data with
  | none => { success := false, client := c, sent := none }
  | some data =>
      match get_zone_by_id c zone_id with
      | none => { success := false, client := c, sent := none }
      | some zone =>
          let setpoints := pa_setpoints zone present_temperature absent_temperature
          if setpoints.isEmpty then { success := true, client := c, sent := none }
          else
            run_set c
              { request_type := REQUEST_TYPE_SETPOINT
                unitCode := data.unit_code
                category := data.category
                zones := [{ id := zone_id, setpoints := some setpoints }] }
              httpOk body

/-- The payload `set_schedule_by_zone_id` builds. -/
def set_schedule_payload (data : ThermostatModel) (zone_id : String)
    (schedule : List DaySchedule) (step : Int) : SetPayload :=
  { request_type := REQUEST_TYPE_SETPOINT
    unitCode := data.unit_code
    category := data.category
    zones := [{ id := zone_id, calendar := some ⟨step, schedule⟩ }] }

/-- `MonetaApiClient.set_schedule_by_zone_id`. -/
def set_schedule_by_zone_id (c : ApiClient) (zone_id : String)
    (schedule : List DaySchedule) (step : Int)
    (httpOk : Bool) (body : JsonResp) : WriteResult :=
  match c.cached_data with
  | none => { success := false, client := c, sent := none }
  | some data => run_set c (set_schedule_payload data zone_id schedule step) httpOk body

/-! ## Mode / preset translation (climate.py) -/

/-- Home Assistant HVAC modes used by the entity. -/
inductive HVACMode where
  | off : HVACMode
  | heat : HVACMode
  | cool : HVACMode
  | auto : HVACMode
deriving DecidableEq, Repr

/-- `_MODE_TO_PRESET.get(zone.mode)`: auto → home, party → boost,
holiday → away, off/manual (and unknown keys) → `None`. -/
def mode_to_preset (mode : String) : Option String :=
  if mode = ZONE_MODE_AUTO then some PRESET_HOME
  else if mode = ZONE_MODE_PARTY then some PRESET_BOOST
  else if mode = ZONE_MODE_HOLIDAY then some PRESET_AWAY
  else none

/-- `coordinator.data`-based zone lookup (`self._zone` in climate.py,
sensor.py and number.py): first zone of the snapshot with the entity's id. -/
def zone_of (data : Option ThermostatModel) (zone_id : String) : Option Zone :=
  match data with
  | none => none
  | some d => d.zones.find? (fun z => z.id == zone_id)

/-- `MonetaClimateEntity.hvac_mode`: an optimistic override wins; otherwise
off → OFF, manual → HEAT in winter / COOL otherwise, and auto / party /
holiday → AUTO.  `season` is `data.season.id` (`self._season`). -/
def hvac_mode (optimistic : Option HVACMode) (zone : Option Zone) (season : String) :
    Option HVACMode :=
  match optimistic with
  | some m => some m
  | none =>
      match zone with
      | none => none
      | some z =>
          if z.mode = ZONE_MODE_OFF then some HVACMode.off
          else if z.mode = ZONE_MODE_MANUAL then
            if season = SEASON_WINTER then some HVACMode.heat else some HVACMode.cool
          else some HVACMode.auto

/-- `MonetaClimateEntity.preset_mode`: the optimistic override (a set
non-sentinel value, modelled as the outer `some`) wins; otherwise a zone
with `holiday_active` reports the away preset, else `_MODE_TO_PRESET`. -/
def preset_mode (optimistic : Option (Option String)) (zone : Option Zone) :
    Option String :=
  match optimistic with
  | some v => v
  | none =>
      match zone with
      | none => none
      | some z =>
          if z.holiday_active then some PRESET_AWAY else mode_to_preset z.mode

/-! ## Availability and native values (climate.py, sensor.py, number.py) -/

/-- `MonetaClimateEntity.available`:
`self.coordinator.last_update_success and self._zone is not None`. -/
def climate_available (last_update_success : Bool) (data : Option ThermostatModel)
    (zone_id : String) : Bool :=
  last_update_success && (zone_of data zone_id).isSome

/-- `MonetaZoneTemperatureSensor.available` (same expression). -/
def sensor_available (last_update_success : Bool) (data : Option ThermostatModel)
    (zone_id : String) : Bool :=
  last_update_success && (zone_of data zone_id).isSome

/-- `MonetaSetpointNumber.available` (same expression). -/
def number_available (last_update_success : Bool) (data : Option ThermostatModel)
    (zone_id : String) : Bool :=
  last_update_success && (zone_of data zone_id).isSome

/-- `MonetaClimateEntity.current_temperature`: `zone.temperature if zone else None`. -/
def climate_current_temperature (data : Option ThermostatModel) (zone_id : String) :
    Option ℚ :=
  (zone_of data zone_id).map Zone.temperature

/-- `MonetaZoneTemperatureSensor.native_value`. -/
def sensor_native_value (data : Option ThermostatModel) (zone_id : String) : Option ℚ :=
  (zone_of data zone_id).map Zone.temperature

/-- `MonetaSetpointNumber.native_value`: the matching setpoint's temperature,
`None` when the zone or the setpoint is missing. -/
def number_native_value (data : Option ThermostatModel) (zone_id : String)
    (setpoint_type : String) : Option ℚ :=
  match zone_of data zone_id with
  | none => none
  | some z => (z.setpoints.find? (fun s => s.type == setpoint_type)).map Setpoint.temperature

/-! ## Schedule reconciliation (text_schedule.py) -/

/-- `MonetaScheduleDayText._get_calendar`: the calendar of the first zone
whose calendar is present with a non-empty schedule. -/
def get_calendar (data : ThermostatModel) : Option Calendar :=
  data.zones.findSome? (fun zone =>
    match zone.calendar with
    | some cal => if cal.schedule.isEmpty then none else some cal
    | none => none)

/-- The `current_by_day` dict of `async_set_value`, as a function: every
weekday starts at `[]`; each schedule entry for that day overwrites the
value, so the last entry wins.  (The dict only has the seven weekday keys
and is only ever read at them.) -/
def current_by_day (cal : Option Calendar) (day : String) : List Band :=
  match cal with
  | none => []
  | some c =>
      match (c.schedule.filter (fun s => s.day == day)).getLast? with
      | some s => s.bands
      | none => []

/-- Steps 3–4 of `async_set_value`: overwrite exactly the edited day's bands
and reassemble the seven days in the fixed MON..SUN order. -/
def build_full_schedule (cal : Option Calendar) (day : String) (new_bands : List Band) :
    List DaySchedule :=
  DAYS_OF_WEEK.map (fun d => ⟨d, if d = day then new_bands else current_by_day cal d⟩)

/-- The step pushed with the schedule: `calendar.step if calendar else 30`. -/
def cal_step (cal : Option Calendar) : Int :=
  match cal with
  | some c => c.step
  | none => 30

/-- `MonetaScheduleDayText.async_set_value` after JSON validation: the list
of set-request payloads pushed, one per zone of the snapshot, in order.
Aborts with no pushes when there is no data or no zones. -/
def schedule_set_value (data : Option ThermostatModel) (day : String)
    (new_bands : List Band) : List SetPayload :=
  match data with
  | none => []
  | some d =>
      if d.zones.isEmpty then []
      else
        let cal := get_calendar d
        let full := build_full_schedule cal day new_bands
        d.zones.map (fun zone => set_schedule_payload d zone.id full (cal_step cal))

/-! ## Concrete fixtures used by witnesses and counterexamples -/

/-- A zone fixture with the fields the claims exercise. -/
def mk_zone (zid : String) (temp : ℚ) (mode : String) (sps : List Setpoint)
    (hol : Bool) (cal : Option Calendar) : Zone :=
  { id := zid
    temperature := temp
    humidity := none
    at_home := true
    at_home_for_scheduler := true
    block_humidity := false
    effective_setpoint := 20
    setpoints := sps
    mode := mode
    setpoint_selected := SETPOINT_PRESENT
    expiration := none
    current_manual_temperature := 0
    holiday_active := hol
    calendar := cal }

/-- 0.5 in normalized form (kernel-reducible without Rat normalization). -/
def q_half : ℚ := ⟨1, 2, by norm_num, by norm_num⟩

/-- 21.5 in normalized form. -/
def q21_5 : ℚ := ⟨43, 2, by norm_num, by norm_num⟩

/-- 22.5 in normalized form. -/
def q22_5 : ℚ := ⟨45, 2, by norm_num, by norm_num⟩

def sample_limits : Limits :=
  { steps := 0, step_value := q_half, present_max_temp := 30, present_min_temp := 5
    absent_max_temp := 30, absent_min_temp := 5
    present_is_unique := false, absent_is_unique := false }

def sample_manual_limits : ManualLimits :=
  { min_temp := 5, max_temp := 30, steps := 0, step_value := q_half }

/-- A snapshot fixture over the given zones. -/
def mk_model (zones : List Zone) : ThermostatModel :=
  { provider := "planet"
    unit_code := "U1"
    measure_unit := "C"
    external_temperature := 10
    category := "heating"
    season := ⟨SEASON_WINTER⟩
    zones := zones
    limits := sample_limits
    manual_limits := sample_manual_limits }

def sample_setpoints : List Setpoint := [⟨SETPOINT_PRESENT, 21⟩, ⟨SETPOINT_ABSENT, 17⟩]

def sample_zone1 : Zone := mk_zone "1" q21_5 ZONE_MODE_AUTO sample_setpoints false none

def sample_model : ThermostatModel := mk_model [sample_zone1]

/-- A structurally successful set-request response body. -/
def ok_body : JsonResp := JsonResp.arr [⟨some true, none⟩]

/-! ## Shared lemmas -/

/-- Every `set_request` outcome is either failure with the state unchanged,
or success with exactly the cache invalidated. -/
theorem set_request_cases (c : ApiClient) (httpOk : Bool) (body : JsonResp) :
    set_request c httpOk body = (false, c) ∨
    set_request c httpOk body = (true, invalidate_cache c) := by
  unfold set_request
  rcases h : api_post httpOk body with _ | r
  · left; rfl
  · cases r with
    | null => right; rfl
    | other => right; rfl
    | arr l =>
        cases l with
        | nil => right; rfl
        | cons first rest =>
            by_cases hcond : (!(first.success.getD false) && err_truthy first) = true
            · left; simp [hcond]
            · right; simp [hcond]

/-- With no fetch in flight and no expiration set, `get_state` fetches. -/
theorem get_state_fetches_of_expired (c : ApiClient) (t : ℚ)
    (f : Option ThermostatModel) (hp : c.pending = false) (he : c.expiration = none) :
    (get_state c t f).fetched = true := by
  cases f <;> simp [get_state, get_state_begin, get_state_finish, hp, he]

/-- A write result invalidated the cache: if it reports success, the
expiration is cleared and the very next `get_state` (with no fetch in
flight) performs a fetch. -/
def write_invalidates (r : WriteResult) (t : ℚ) (f : Option ThermostatModel) : Prop :=
  r.success = true →
    r.client.expiration = none ∧ (get_state r.client t f).fetched = true

/-- `run_set` (build payload, `_set_request`) satisfies `write_invalidates`. -/
theorem run_set_invalidates (c : ApiClient) (payload : SetPayload) (httpOk : Bool)
    (body : JsonResp) (t : ℚ) (f : Option ThermostatModel) (hp : c.pending = false) :
    write_invalidates (run_set c payload httpOk body) t f := by
  intro hs
  rcases set_request_cases c httpOk body with h | h
  · simp [run_set, h] at hs
  · constructor
    · simp [run_set, h, invalidate_cache]
    · have : (run_set c payload httpOk body).client = invalidate_cache c := by
        simp [run_set, h]
      rw [this]
      exact get_state_fetches_of_expired _ t f (by simp [invalidate_cache, hp]) rfl

/-! ## Claims -/

/-- C1: Request coalescing — whenever the in-flight flag is set, `get_state`
performs no outbound fetch, leaves the state unchanged and returns the last
known cached snapshot (null if none was ever fetched); consequently, when a
second `get_state` call overlaps a first one (which set the flag at its
begin step), the second call fetches nothing and returns the previous
snapshot, and only the first call's completion performs the single fetch. -/
theorem C1_request_coalescing (c c0 : ApiClient) (t1 t2 : ℚ)
    (f g : Option ThermostatModel)
    (hc : c.pending = true)
    (h0 : c0.pending = false)
    (hw : (get_state_begin c0 t1).2 = true) :
    get_state c t2 g = ⟨c, c.cached_data, false⟩ ∧
    (get_state_begin c0 t1).1.pending = true ∧
    (get_state (get_state_begin c0 t1).1 t2 g).fetched = false ∧
    (get_state (get_state_begin c0 t1).1 t2 g).result = c0.cached_data ∧
    (get_state_finish (get_state_begin c0 t1).1 t1 f).fetched = true := by
  have hb : get_state_begin c0 t1 = ({ c0 with pending := true }, true) := by
    by_cases hcond : (c0.pending ||
        match c0.expiration with
        | some e => decide (t1 < e)
        | none => false) = true
    · unfold get_state_begin at hw
      rw [if_pos hcond] at hw
      simp at hw
    · unfold get_state_begin
      rw [if_neg hcond]
  refine ⟨?_, ?_, ?_, ?_, ?_⟩
  · simp [get_state, get_state_begin, hc]
  · rw [hb]
  · rw [hb]; simp [get_state, get_state_begin]
  · rw [hb]; simp [get_state, get_state_begin]
  · rw [hb]; cases f <;> simp [get_state_finish]

/-- Witness for C1 at a concrete in-flight state and a concrete fresh client. -/
theorem C1_request_coalescing_witness :
    (ApiClient.mk 10 (some sample_model) none true).pending = true ∧
    (init_client 10).pending = false ∧
    (get_state_begin (init_client 10) 0).2 = true ∧
    (get_state (ApiClient.mk 10 (some sample_model) none true) 0 none =
        ⟨ApiClient.mk 10 (some sample_model) none true,
         (ApiClient.mk 10 (some sample_model) none true).cached_data, false⟩ ∧
      (get_state_begin (init_client 10) 0).1.pending = true ∧
      (get_state (get_state_begin (init_client 10) 0).1 0 none).fetched = false ∧
      (get_state (get_state_begin (init_client 10) 0).1 0 none).result =
        (init_client 10).cached_data ∧
      (get_state_finish (get_state_begin (init_client 10) 0).1 0
        (some sample_model)).fetched = true) :=
  ⟨by decide, by decide, by decide,
    C1_request_coalescing (ApiClient.mk 10 (some sample_model) none true)
      (init_client 10) 0 0 (some sample_model) none (by decide) (by decide) (by decide)⟩

/-- C2: TTL invalidation round-trip — starting from a freshly constructed
client with configured interval `P`, a successful fetch at time `T` caches
the snapshot and sets the expiration to `T` plus the effective interval
`max P MIN_POLLING_INTERVAL`; every call strictly before that expiration
returns the cached snapshot with no network call and leaves the state
unchanged; a call at or after the expiration fetches again and, on success,
sets the expiration to the new now plus the effective interval. -/
theorem C2_ttl_round_trip (P : Int) (m m2 : ThermostatModel) (T tb ta : ℚ)
    (f : Option ThermostatModel)
    (hb : tb < T + ((max P MIN_POLLING_INTERVAL : Int) : ℚ))
    (ha : T + ((max P MIN_POLLING_INTERVAL : Int) : ℚ) ≤ ta) :
    (get_state (init_client P) T (some m)).client =
      ⟨max P MIN_POLLING_INTERVAL, some m,
        some (T + ((max P MIN_POLLING_INTERVAL : Int) : ℚ)), false⟩ ∧
    get_state
        ⟨max P MIN_POLLING_INTERVAL, some m,
          some (T + ((max P MIN_POLLING_INTERVAL : Int) : ℚ)), false⟩ tb f =
      ⟨⟨max P MIN_POLLING_INTERVAL, some m,
          some (T + ((max P MIN_POLLING_INTERVAL : Int) : ℚ)), false⟩, some m, false⟩ ∧
    (get_state
        ⟨max P MIN_POLLING_INTERVAL, some m,
          some (T + ((max P MIN_POLLING_INTERVAL : Int) : ℚ)), false⟩ ta f).fetched =
      true ∧
    (get_state
        ⟨max P MIN_POLLING_INTERVAL, some m,
          some (T + ((max P MIN_POLLING_INTERVAL : Int) : ℚ)), false⟩ ta
        (some m2)).client.expiration =
      some (ta + ((max P MIN_POLLING_INTERVAL : Int) : ℚ)) := by
  have hb' := hb
  have hna' : ¬ (ta < T + ((max P MIN_POLLING_INTERVAL : Int) : ℚ)) := not_lt.mpr ha
  push_cast at hb' hna'
  refine ⟨?_, ?_, ?_, ?_⟩
  · simp [get_state, get_state_begin, get_state_finish, init_client]
  · simp [get_state, get_state_begin, Int.cast_max, hb']
  · cases f <;> simp [get_state, get_state_begin, get_state_finish, Int.cast_max, hna']
  · simp [get_state, get_state_begin, get_state_finish, Int.cast_max, hna']

/-- Witness for C2 with interval 10, fetch at T = 0, reads at 5 and 10. -/
theorem C2_ttl_round_trip_witness :
    ((5 : ℚ) < 0 + ((max 10 MIN_POLLING_INTERVAL : Int) : ℚ)) ∧
    ((0 : ℚ) + ((max 10 MIN_POLLING_INTERVAL : Int) : ℚ) ≤ 10) ∧
    ((get_state (init_client 10) 0 (some sample_model)).client =
      ⟨max 10 MIN_POLLING_INTERVAL, some sample_model,
        some (0 + ((max 10 MIN_POLLING_INTERVAL : Int) : ℚ)), false⟩ ∧
    get_state
        ⟨max 10 MIN_POLLING_INTERVAL, some sample_model,
          some (0 + ((max 10 MIN_POLLING_INTERVAL : Int) : ℚ)), false⟩ 5 none =
      ⟨⟨max 10 MIN_POLLING_INTERVAL, some sample_model,
          some (0 + ((max 10 MIN_POLLING_INTERVAL : Int) : ℚ)), false⟩,
        some sample_model, false⟩ ∧
    (get_state
        ⟨max 10 MIN_POLLING_INTERVAL, some sample_model,
          some (0 + ((max 10 MIN_POLLING_INTERVAL : Int) : ℚ)), false⟩ 10 none).fetched =
      true ∧
    (get_state
        ⟨max 10 MIN_POLLING_INTERVAL, some sample_model,
          some (0 + ((max 10 MIN_POLLING_INTERVAL : Int) : ℚ)), false⟩ 10
        (some sample_model)).client.expiration =
      some (10 + ((max 10 MIN_POLLING_INTERVAL : Int) : ℚ))) :=
  ⟨by simp [MIN_POLLING_INTERVAL] <;> decide,
    by simp [MIN_POLLING_INTERVAL] <;> decide,
    C2_ttl_round_trip 10 sample_model sample_model 0 5 10 none
      (by simp [MIN_POLLING_INTERVAL] <;> decide)
      (by simp [MIN_POLLING_INTERVAL] <;> decide)⟩

/-- C3: Write-then-invalidate — every write operation that reports success
leaves the cache expiration cleared (already expired), so the very next
`get_state` call with no fetch in flight performs a fresh fetch.  For
`set_present_absent_temperature` this holds whenever the call actually sent
a payload (i.e. some requested value differed from the cached one). -/
theorem C3_write_invalidates (c : ApiClient) (httpOk : Bool) (body : JsonResp)
    (t : ℚ) (f : Option ThermostatModel) (zid : String) (temp : ℚ)
    (p a : Option ℚ) (sched : List DaySchedule) (step : Int)
    (zopt : Option String) (hrs days nts : Nat)
    (hpend : c.pending = false) :
    write_invalidates (set_off c httpOk body) t f ∧
    write_invalidates (set_auto c httpOk body) t f ∧
    write_invalidates (set_heat_cool c httpOk body) t f ∧
    write_invalidates (set_party c zopt hrs nts httpOk body) t f ∧
    write_invalidates (set_frost_protection c httpOk body) t f ∧
    write_invalidates (set_holiday c days nts httpOk body) t f ∧
    write_invalidates (set_manual_temperature c zid temp httpOk body) t f ∧
    ((set_present_absent_temperature c zid p a httpOk body).sent.isSome = true →
      write_invalidates (set_present_absent_temperature c zid p a httpOk body) t f) ∧
    write_invalidates (set_schedule_by_zone_id c zid sched step httpOk body) t f := by
  refine ⟨?_, ?_, ?_, ?_, ?_, ?_, ?_, ?_, ?_⟩
  case _ =>
    unfold set_off
    cases c.cached_data with
    | none => intro hs; simp at hs
    | some data => exact run_set_invalidates c _ httpOk body t f hpend
  case _ =>
    unfold set_auto
    cases c.cached_data with
    | none => intro hs; simp at hs
    | some data => exact run_set_invalidates c _ httpOk body t f hpend
  case _ =>
    unfold set_heat_cool
    cases c.cached_data with
    | none => intro hs; simp at hs
    | some data => exact run_set_invalidates c _ httpOk body t f hpend
  case _ =>
    unfold set_party
    cases c.cached_data with
    | none => intro hs; simp at hs
    | some data => exact run_set_invalidates c _ httpOk body t f hpend
  case _ =>
    unfold set_frost_protection
    cases c.cached_data with
    | none => intro hs; simp at hs
    | some data => exact run_set_invalidates c _ httpOk body t f hpend
  case _ =>
    unfold set_holiday
    cases c.cached_data with
    | none => intro hs; simp at hs
    | some data => exact run_set_invalidates c _ httpOk body t f hpend
  case _ =>
    unfold set_manual_temperature
    cases c.cached_data with
    | none => intro hs; simp at hs
    | some data => exact run_set_invalidates c _ httpOk body t f hpend
  case _ =>
    unfold set_present_absent_temperature
    cases c.cached_data with
    | none => intro hs; simp at hs
    | some data =>
        cases get_zone_by_id c zid with
        | none => intro hs; simp at hs
        | some zone =>
            by_cases hemp : (pa_setpoints zone p a).isEmpty = true
            · simp [hemp]
            · intro _
              simp only [hemp, if_neg, Bool.false_eq_true, if_false]
              exact run_set_invalidates c _ httpOk body t f hpend
  case _ =>
    unfold set_schedule_by_zone_id
    cases c.cached_data with
    | none => intro hs; simp at hs
    | some data => exact run_set_invalidates c _ httpOk body t f hpend

/-- Witness for C3 at a concrete cached client and successful responses. -/
theorem C3_write_invalidates_witness :
    (ApiClient.mk 10 (some sample_model) (some 100) false).pending = false ∧
    (set_off (ApiClient.mk 10 (some sample_model) (some 100) false) true
        ok_body).success = true ∧
    (set_off (ApiClient.mk 10 (some sample_model) (some 100) false) true
        ok_body).client.expiration = none ∧
    (get_state (set_off (ApiClient.mk 10 (some sample_model) (some 100) false) true
        ok_body).client 0 none).fetched = true ∧
    (set_present_absent_temperature
        (ApiClient.mk 10 (some sample_model) (some 100) false) "1" (some 22) none true
        ok_body).sent.isSome = true ∧
    (set_present_absent_temperature
        (ApiClient.mk 10 (some sample_model) (some 100) false) "1" (some 22) none true
        ok_body).client.expiration = none := by
  have h := C3_write_invalidates (ApiClient.mk 10 (some sample_model) (some 100) false)
    true ok_body 0 none "1" 22 (some 22) none [] 30 none 4 30 0 (by decide)
  have hoff := h.1 (by decide)
  have hpa := (h.2.2.2.2.2.2.2.1 (by decide)) (by decide)
  exact ⟨by decide, by decide, hoff.1, hoff.2, by decide, hpa.1⟩

/-- A write through `set_present_absent_temperature` never changes the
cached snapshot (only the expiration may be cleared). -/
theorem set_pa_cached_data (c : ApiClient) (zid : String) (p a : Option ℚ)
    (hk : Bool) (b : JsonResp) :
    (set_present_absent_temperature c zid p a hk b).client.cached_data =
      c.cached_data := by
  obtain ⟨pi, cd, ex, pe⟩ := c
  unfold set_present_absent_temperature
  cases cd with
  | none => rfl
  | some data =>
      cases hz : get_zone_by_id ⟨pi, some data, ex, pe⟩ zid with
      | none => rfl
      | some zone =>
          by_cases he : (pa_setpoints zone p a).isEmpty
          · simp [hz, he]
          · simp only [hz, he, Bool.false_eq_true, if_false, run_set]
            rcases set_request_cases ⟨pi, some data, ex, pe⟩ hk b with h | h <;>
              simp [h, invalidate_cache]

/-- Whether `set_present_absent_temperature` sends a payload (and which one)
depends only on the cached snapshot and the arguments, not on the expiration
or in-flight flag. -/
theorem set_pa_sent_congr (c c' : ApiClient) (zid : String) (p a : Option ℚ)
    (hk1 hk2 : Bool) (b1 b2 : JsonResp) (h : c'.cached_data = c.cached_data) :
    (set_present_absent_temperature c' zid p a hk2 b2).sent =
      (set_present_absent_temperature c zid p a hk1 b1).sent := by
  obtain ⟨pi, cd, ex, pe⟩ := c
  obtain ⟨pi', cd', ex', pe'⟩ := c'
  simp only at h
  subst h
  unfold set_present_absent_temperature get_zone_by_id
  cases cd' with
  | none => rfl
  | some data =>
      cases hz : data.zones.find? (fun z => z.id == zid) with
      | none => simp [hz]
      | some zone =>
          by_cases he : (pa_setpoints zone p a).isEmpty
          · simp [hz, he]
          · simp [hz, he, run_set]

/-- C4 counterexample: with zone "1" cached at present=21, calling
`set_present_absent_temperature("1", present=22)` twice in a row issues the
underlying write both times with the identical payload (the write
invalidates but does not update the cache, so the deduplication still sees
21 ≠ 22 on the second call), refuting "issues the underlying write at most
once, the second call being a no-op". -/
theorem C4_second_call_writes_again :
    (set_present_absent_temperature
        (ApiClient.mk 10 (some sample_model) (some 100) false) "1" (some 22) none
        true ok_body).client.cached_data =
      (ApiClient.mk 10 (some sample_model) (some 100) false).cached_data ∧
    (set_present_absent_temperature
        (ApiClient.mk 10 (some sample_model) (some 100) false) "1" (some 22) none
        true ok_body).sent =
      some { request_type := REQUEST_TYPE_SETPOINT, unitCode := "U1",
             category := "heating",
             zones := [{ id := "1",
                         setpoints := some [⟨SETPOINT_PRESENT, 22⟩] }] } ∧
    (set_present_absent_temperature
        (set_present_absent_temperature
            (ApiClient.mk 10 (some sample_model) (some 100) false) "1" (some 22) none
            true ok_body).client "1" (some 22) none true ok_body).sent =
      some { request_type := REQUEST_TYPE_SETPOINT, unitCode := "U1",
             category := "heating",
             zones := [{ id := "1",
                         setpoints := some [⟨SETPOINT_PRESENT, 22⟩] }] } ∧
    (set_present_absent_temperature
        (set_present_absent_temperature
            (ApiClient.mk 10 (some sample_model) (some 100) false) "1" (some 22) none
            true ok_body).client "1" (some 22) none true ok_body).sent.isSome =
      true := by
  refine ⟨rfl, rfl, rfl, rfl⟩

/-- C4 (amended): each requested setpoint whose value equals the zone's
cached value for that type is omitted from the payload — in particular, with
one value matching the cache and the other changed, the payload that IS sent
contains only the changed setpoint; if both requested values are unchanged
or not given, no network call is made and the call returns success with the
state untouched.  However, a write never updates the cached snapshot, so
calling the method twice in a row with the same arguments sends a payload on
the second call exactly when it did on the first — two writes when a value
differs from the cache, zero when none does. -/
theorem C4_setpoint_dedup_amended (c : ApiClient) (zid : String) (p a : Option ℚ)
    (hk1 hk2 : Bool) (b1 b2 : JsonResp) (data : ThermostatModel) (zone : Zone)
    (hcd : c.cached_data = some data)
    (hz : get_zone_by_id c zid = some zone) :
    (skip_present zone p = true → skip_absent zone a = true →
      set_present_absent_temperature c zid p a hk1 b1 = ⟨true, c, none⟩) ∧
    (pa_setpoints zone p a ≠ [] →
      (set_present_absent_temperature c zid p a hk1 b1).sent =
        some { request_type := REQUEST_TYPE_SETPOINT, unitCode := data.unit_code,
               category := data.category,
               zones := [{ id := zid, setpoints := some (pa_setpoints zone p a) }] }) ∧
    (∀ v w, p = some v → a = some w →
      get_setpoint_temperature zone SETPOINT_PRESENT = some v →
      get_setpoint_temperature zone SETPOINT_ABSENT ≠ some w →
      pa_setpoints zone p a = [⟨SETPOINT_ABSENT, w⟩]) ∧
    (∀ v w, p = some v → a = some w →
      get_setpoint_temperature zone SETPOINT_PRESENT ≠ some v →
      get_setpoint_temperature zone SETPOINT_ABSENT = some w →
      pa_setpoints zone p a = [⟨SETPOINT_PRESENT, v⟩]) ∧
    ((set_present_absent_temperature c zid p a hk1 b1).client.cached_data =
      c.cached_data) ∧
    ((set_present_absent_temperature
        (set_present_absent_temperature c zid p a hk1 b1).client zid p a hk2 b2).sent =
      (set_present_absent_temperature c zid p a hk1 b1).sent) ∧
    (pa_setpoints zone p a ≠ [] →
      (set_present_absent_temperature c zid p a hk1 b1).sent.isSome = true ∧
      (set_present_absent_temperature
          (set_present_absent_temperature c zid p a hk1 b1).client zid p a
          hk2 b2).sent.isSome = true) := by
  have hsend : pa_setpoints zone p a ≠ [] →
      (set_present_absent_temperature c zid p a hk1 b1).sent =
        some { request_type := REQUEST_TYPE_SETPOINT, unitCode := data.unit_code,
               category := data.category,
               zones := [{ id := zid, setpoints := some (pa_setpoints zone p a) }] } := by
    intro hpa
    have hE : (pa_setpoints zone p a).isEmpty = false := by
      cases hE2 : (pa_setpoints zone p a).isEmpty
      · rfl
      · exact absurd (List.isEmpty_iff.mp hE2) hpa
    obtain ⟨pi, cd, ex, pe⟩ := c
    simp only at hcd
    subst hcd
    unfold set_present_absent_temperature
    simp [hz, hE, run_set]
  refine ⟨?_, hsend, ?_, ?_,
    set_pa_cached_data c zid p a hk1 b1,
    set_pa_sent_congr c _ zid p a hk1 hk2 b1 b2 (set_pa_cached_data c zid p a hk1 b1),
    ?_⟩
  · intro hsp hsa
    have hempty : pa_setpoints zone p a = [] := by
      cases p <;> cases a <;>
        simp_all [pa_setpoints, skip_present, skip_absent]
    obtain ⟨pi, cd, ex, pe⟩ := c
    simp only at hcd
    subst hcd
    unfold set_present_absent_temperature
    simp [hz, hempty]
  · intro v w hp ha hpv hnw
    subst hp
    subst ha
    simp [pa_setpoints, skip_present, skip_absent, hpv, hnw]
  · intro v w hp ha hnv hwv
    subst hp
    subst ha
    simp [pa_setpoints, skip_present, skip_absent, hnv, hwv]
  · intro hpa
    have h1 := hsend hpa
    have h2 := set_pa_sent_congr c _ zid p a hk1 hk2 b1 b2
      (set_pa_cached_data c zid p a hk1 b1)
    rw [h2, h1]
    exact ⟨rfl, rfl⟩

/-- Witness for the amended C4: zone "1" is cached at present=21 / absent=17;
requesting present=21 (matched) together with absent=18 (changed) sends a
payload containing only the absent setpoint, and both consecutive calls send
that same payload; requesting only the matched present=21 makes no call and
returns success. -/
theorem C4_setpoint_dedup_amended_witness :
    (ApiClient.mk 10 (some sample_model) (some 100) false).cached_data =
      some sample_model ∧
    get_zone_by_id (ApiClient.mk 10 (some sample_model) (some 100) false) "1" =
      some sample_zone1 ∧
    pa_setpoints sample_zone1 (some 21) (some 18) = [⟨SETPOINT_ABSENT, 18⟩] ∧
    (set_present_absent_temperature
        (ApiClient.mk 10 (some sample_model) (some 100) false) "1" (some 21)
        (some 18) true ok_body).sent =
      some { request_type := REQUEST_TYPE_SETPOINT, unitCode := "U1",
             category := "heating",
             zones := [{ id := "1",
                         setpoints :=
                           some (pa_setpoints sample_zone1 (some 21) (some 18)) }] } ∧
    (set_present_absent_temperature
        (set_present_absent_temperature
            (ApiClient.mk 10 (some sample_model) (some 100) false) "1" (some 21)
            (some 18) true ok_body).client "1" (some 21) (some 18) true
        ok_body).sent =
      (set_present_absent_temperature
          (ApiClient.mk 10 (some sample_model) (some 100) false) "1" (some 21)
          (some 18) true ok_body).sent ∧
    (set_present_absent_temperature
        (ApiClient.mk 10 (some sample_model) (some 100) false) "1" (some 21)
        (some 18) true ok_body).sent.isSome = true ∧
    (set_present_absent_temperature
        (set_present_absent_temperature
            (ApiClient.mk 10 (some sample_model) (some 100) false) "1" (some 21)
            (some 18) true ok_body).client "1" (some 21) (some 18) true
        ok_body).sent.isSome = true ∧
    set_present_absent_temperature
        (ApiClient.mk 10 (some sample_model) (some 100) false) "1" (some 21) none
        true ok_body =
      ⟨true, ApiClient.mk 10 (some sample_model) (some 100) false, none⟩ := by
  have h := C4_setpoint_dedup_amended
    (ApiClient.mk 10 (some sample_model) (some 100) false) "1" (some 21) (some 18)
    true true ok_body ok_body sample_model sample_zone1 rfl (by decide)
  have hskip := C4_setpoint_dedup_amended
    (ApiClient.mk 10 (some sample_model) (some 100) false) "1" (some 21) none
    true true ok_body ok_body sample_model sample_zone1 rfl (by decide)
  refine ⟨rfl, by decide,
    h.2.2.1 21 18 rfl rfl (by decide) (by decide),
    h.2.1 (by decide),
    h.2.2.2.2.2.1,
    (h.2.2.2.2.2.2 (by decide)).1,
    (h.2.2.2.2.2.2 (by decide)).2,
    hskip.1 (by decide) (by decide)⟩

/-- C5 counterexample: an empty-array response, a non-array response, and a
first element missing both `success` and `error` are all treated as a
SUCCESSFUL call — `_set_request` returns true and invalidates the cache —
refuting the claim that they are treated as failed calls returning false. -/
theorem C5_malformed_success_counterexample :
    (set_request (ApiClient.mk 10 none (some 100) false) true (JsonResp.arr [])).1 =
      true ∧
    (set_request (ApiClient.mk 10 none (some 100) false) true
        (JsonResp.arr [])).2.expiration = none ∧
    (set_request (ApiClient.mk 10 none (some 100) false) true JsonResp.other).1 =
      true ∧
    (set_request (ApiClient.mk 10 none (some 100) false) true
        (JsonResp.arr [⟨none, none⟩])).1 = true := by
  refine ⟨rfl, rfl, rfl, rfl⟩

/-- C5 (amended): a write's set request returns false exactly when the
exchange failed at the transport/HTTP level, the body decoded to `None`, or
the body is a non-empty array whose first element carries a truthy error
field; on failure the state is unchanged (no invalidation).  Any other
response — including an empty array, a non-array body, or a first element
missing the success field without an error — is treated as success and
invalidates the cache. -/
theorem C5_failed_call_amended (c : ApiClient) (httpOk : Bool) (body : JsonResp) :
    ((set_request c httpOk body).1 = false ↔
      (httpOk = false ∨ body = JsonResp.null ∨
        ∃ e es, body = JsonResp.arr (e :: es) ∧ err_truthy e = true)) ∧
    ((set_request c httpOk body).1 = false → (set_request c httpOk body).2 = c) ∧
    ((set_request c httpOk body).1 = true →
      (set_request c httpOk body).2 = invalidate_cache c) := by
  refine ⟨?_, ?_, ?_⟩
  · cases httpOk with
    | false => simp [set_request, api_post]
    | true =>
        cases body with
        | null => simp [set_request, api_post]
        | other => simp [set_request, api_post]
        | arr l =>
            cases l with
            | nil => simp [set_request, api_post]
            | cons first rest =>
                by_cases he : err_truthy first = true
                · simp [set_request, api_post, he]
                · by_cases hs : (!(first.success.getD false) && err_truthy first) = true
                  · simp [he] at hs
                  · simp [set_request, api_post, he, hs]
  · intro hf
    rcases set_request_cases c httpOk body with h | h
    · rw [h]
    · rw [h] at hf; simp at hf
  · intro ht
    rcases set_request_cases c httpOk body with h | h
    · rw [h] at ht; simp at ht
    · rw [h]

/-- Witness for the amended C5: a null body fails without invalidating; a
success body invalidates. -/
theorem C5_failed_call_amended_witness :
    (set_request (ApiClient.mk 10 none (some 100) false) false JsonResp.null).1 =
      false ∧
    (set_request (ApiClient.mk 10 none (some 100) false) false JsonResp.null).2 =
      ApiClient.mk 10 none (some 100) false ∧
    (set_request (ApiClient.mk 10 none (some 100) false) true ok_body).2 =
      invalidate_cache (ApiClient.mk 10 none (some 100) false) := by
  have h1 := C5_failed_call_amended (ApiClient.mk 10 none (some 100) false) false
    JsonResp.null
  have h2 := C5_failed_call_amended (ApiClient.mk 10 none (some 100) false) true
    ok_body
  exact ⟨h1.1.mpr (Or.inl rfl), h1.2.1 (h1.1.mpr (Or.inl rfl)), h2.2.2 (by decide)⟩

/-- C6: Operating-mode translation — with no optimistic override and the
zone present: mode off maps to OFF (for any season); mode manual maps to
HEAT in winter and COOL in summer; modes auto, party and holiday all map to
AUTO; the auto sub-state appears only as the preset label, where an active
holiday flag takes priority (away preset) and otherwise auto maps to the
follow-schedule (home) preset. -/
theorem C6_mode_translation (z1 z2 z3 z4 z5 : Zone) (s : String)
    (h1 : z1.mode = ZONE_MODE_OFF)
    (h2 : z2.mode = ZONE_MODE_MANUAL)
    (h3 : z3.mode = ZONE_MODE_AUTO ∨ z3.mode = ZONE_MODE_PARTY ∨
      z3.mode = ZONE_MODE_HOLIDAY)
    (h4 : z4.holiday_active = true)
    (h5m : z5.mode = ZONE_MODE_AUTO) (h5h : z5.holiday_active = false) :
    hvac_mode none (some z1) s = some HVACMode.off ∧
    hvac_mode none (some z2) SEASON_WINTER = some HVACMode.heat ∧
    hvac_mode none (some z2) SEASON_SUMMER = some HVACMode.cool ∧
    hvac_mode none (some z3) s = some HVACMode.auto ∧
    preset_mode none (some z4) = some PRESET_AWAY ∧
    preset_mode none (some z5) = some PRESET_HOME := by
  refine ⟨?_, ?_, ?_, ?_, ?_, ?_⟩
  · simp [hvac_mode, h1]
  · simp [hvac_mode, h2, ZONE_MODE_MANUAL, ZONE_MODE_OFF, SEASON_WINTER]
  · simp [hvac_mode, h2, ZONE_MODE_MANUAL, ZONE_MODE_OFF, SEASON_WINTER, SEASON_SUMMER]
  · rcases h3 with h | h | h <;>
      simp [hvac_mode, h, ZONE_MODE_AUTO, ZONE_MODE_PARTY, ZONE_MODE_HOLIDAY,
        ZONE_MODE_OFF, ZONE_MODE_MANUAL]
  · simp [preset_mode, h4]
  · simp [preset_mode, h5h, h5m, mode_to_preset]

/-- Witness for C6 at one concrete zone per translated mode. -/
theorem C6_mode_translation_witness :
    (mk_zone "1" 20 ZONE_MODE_OFF [] false none).mode = ZONE_MODE_OFF ∧
    (mk_zone "1" 20 ZONE_MODE_MANUAL [] false none).mode = ZONE_MODE_MANUAL ∧
    ((mk_zone "1" 20 ZONE_MODE_PARTY [] false none).mode = ZONE_MODE_AUTO ∨
      (mk_zone "1" 20 ZONE_MODE_PARTY [] false none).mode = ZONE_MODE_PARTY ∨
      (mk_zone "1" 20 ZONE_MODE_PARTY [] false none).mode = ZONE_MODE_HOLIDAY) ∧
    (mk_zone "1" 20 ZONE_MODE_OFF [] true none).holiday_active = true ∧
    (mk_zone "1" 20 ZONE_MODE_AUTO [] false none).mode = ZONE_MODE_AUTO ∧
    (mk_zone "1" 20 ZONE_MODE_AUTO [] false none).holiday_active = false ∧
    (hvac_mode none (some (mk_zone "1" 20 ZONE_MODE_OFF [] false none)) SEASON_SUMMER =
        some HVACMode.off ∧
      hvac_mode none (some (mk_zone "1" 20 ZONE_MODE_MANUAL [] false none))
          SEASON_WINTER = some HVACMode.heat ∧
      hvac_mode none (some (mk_zone "1" 20 ZONE_MODE_MANUAL [] false none))
          SEASON_SUMMER = some HVACMode.cool ∧
      hvac_mode none (some (mk_zone "1" 20 ZONE_MODE_PARTY [] false none))
          SEASON_SUMMER = some HVACMode.auto ∧
      preset_mode none (some (mk_zone "1" 20 ZONE_MODE_OFF [] true none)) =
        some PRESET_AWAY ∧
      preset_mode none (some (mk_zone "1" 20 ZONE_MODE_AUTO [] false none)) =
        some PRESET_HOME) :=
  ⟨by decide, by decide, by decide, by decide, by decide, by decide,
    C6_mode_translation
      (mk_zone "1" 20 ZONE_MODE_OFF [] false none)
      (mk_zone "1" 20 ZONE_MODE_MANUAL [] false none)
      (mk_zone "1" 20 ZONE_MODE_PARTY [] false none)
      (mk_zone "1" 20 ZONE_MODE_OFF [] true none)
      (mk_zone "1" 20 ZONE_MODE_AUTO [] false none)
      SEASON_SUMMER (by decide) (by decide) (by decide) (by decide) (by decide)
      (by decide)⟩

/-- C7: Zone availability — every zone-scoped entity (climate, zone
temperature sensor, setpoint number) reports unavailable when its zone id is
absent from the snapshot's zone list, and reports unavailable whenever the
last refresh failed; for a missing zone the native values are null, never a
synthesized or default reading. -/
theorem C7_zone_availability (success : Bool) (data data' : Option ThermostatModel)
    (zid zid' : String)
    (hz : zone_of data zid = none) :
    climate_available success data zid = false ∧
    sensor_available success data zid = false ∧
    number_available success data zid = false ∧
    climate_available false data' zid' = false ∧
    sensor_available false data' zid' = false ∧
    number_available false data' zid' = false ∧
    climate_current_temperature data zid = none ∧
    sensor_native_value data zid = none ∧
    (∀ setpoint_type, number_native_value data zid setpoint_type = none) := by
  refine ⟨?_, ?_, ?_, ?_, ?_, ?_, ?_, ?_, ?_⟩
  · simp [climate_available, hz]
  · simp [sensor_available, hz]
  · simp [number_available, hz]
  · simp [climate_available]
  · simp [sensor_available]
  · simp [number_available]
  · simp [climate_current_temperature, hz]
  · simp [sensor_native_value, hz]
  · intro tp; simp [number_native_value, hz]

/-- Witness for C7: the spec's example — a snapshot with only zones "1" and
"3" makes every zone-"2" entity unavailable with null values. -/
theorem C7_zone_availability_witness :
    zone_of (some (mk_model [sample_zone1,
        mk_zone "3" 19 ZONE_MODE_AUTO [] false none])) "2" = none ∧
    (climate_available true (some (mk_model [sample_zone1,
        mk_zone "3" 19 ZONE_MODE_AUTO [] false none])) "2" = false ∧
      sensor_available true (some (mk_model [sample_zone1,
        mk_zone "3" 19 ZONE_MODE_AUTO [] false none])) "2" = false ∧
      number_available true (some (mk_model [sample_zone1,
        mk_zone "3" 19 ZONE_MODE_AUTO [] false none])) "2" = false ∧
      climate_available false none "1" = false ∧
      sensor_available false none "1" = false ∧
      number_available false none "1" = false ∧
      climate_current_temperature (some (mk_model [sample_zone1,
        mk_zone "3" 19 ZONE_MODE_AUTO [] false none])) "2" = none ∧
      sensor_native_value (some (mk_model [sample_zone1,
        mk_zone "3" 19 ZONE_MODE_AUTO [] false none])) "2" = none ∧
      (∀ setpoint_type, number_native_value (some (mk_model [sample_zone1,
        mk_zone "3" 19 ZONE_MODE_AUTO [] false none])) "2" setpoint_type = none)) :=
  ⟨by decide,
    C7_zone_availability true
      (some (mk_model [sample_zone1, mk_zone "3" 19 ZONE_MODE_AUTO [] false none]))
      none "2" "1" (by decide)⟩

/-- C8: Schedule reconciliation — for a single-day edit with new bands `nb`
for day `day`, the produced 7-day schedule lists the days in the fixed
MON..SUN order, maps the edited day to exactly `nb` and every other day to
its bands from the canonical schedule (first zone with a non-empty
calendar; every day empty when no calendar exists), and that identical full
schedule is pushed to every zone of the snapshot with the canonical
calendar's step (30 when none existed). -/
theorem C8_schedule_reconciliation (data : ThermostatModel) (day : String)
    (nb : List Band) (hd : day ∈ DAYS_OF_WEEK) :
    ((build_full_schedule (get_calendar data) day nb).map DaySchedule.day =
      DAYS_OF_WEEK) ∧
    (DaySchedule.mk day nb ∈ build_full_schedule (get_calendar data) day nb) ∧
    (∀ s ∈ build_full_schedule (get_calendar data) day nb,
      s.day = day → s.bands = nb) ∧
    (∀ s ∈ build_full_schedule (get_calendar data) day nb,
      s.day ≠ day → s.bands = current_by_day (get_calendar data) s.day) ∧
    (get_calendar data = none →
      ∀ s ∈ build_full_schedule (get_calendar data) day nb,
        s.day ≠ day → s.bands = []) ∧
    schedule_set_value (some data) day nb =
      data.zones.map (fun z =>
        set_schedule_payload data z.id
          (build_full_schedule (get_calendar data) day nb)
          (cal_step (get_calendar data))) := by
  refine ⟨?_, ?_, ?_, ?_, ?_, ?_⟩
  · simp [build_full_schedule, List.map_map]
    rfl
  · have : DaySchedule.mk day nb =
        (fun d => DaySchedule.mk d (if d = day then nb else
          current_by_day (get_calendar data) d)) day := by
      simp
    rw [this]
    exact List.mem_map_of_mem _ hd
  · intro s hs hsd
    simp only [build_full_schedule, List.mem_map] at hs
    obtain ⟨d, _, rfl⟩ := hs
    simp only at hsd
    subst hsd
    simp
  · intro s hs hsd
    simp only [build_full_schedule, List.mem_map] at hs
    obtain ⟨d, _, rfl⟩ := hs
    simp only at hsd ⊢
    rw [if_neg hsd]
  · intro hnone s hs hsd
    simp only [build_full_schedule, List.mem_map] at hs
    obtain ⟨d, _, rfl⟩ := hs
    simp only at hsd ⊢
    rw [if_neg hsd, hnone]
    rfl
  · unfold schedule_set_value
    by_cases hz : data.zones.isEmpty
    · rw [List.isEmpty_iff] at hz
      simp [hz]
    · simp [hz]

/-- Witness for C8: the spec's merge example — the canonical schedule has
MON = [07:00-22:00] and all other days empty; editing TUE to
[09:00-18:00] yields MON unchanged, TUE = the new band, the other days
empty, and the same payload is pushed to both zones with step 30. -/
theorem C8_schedule_reconciliation_witness :
    ("TUE" : String) ∈ DAYS_OF_WEEK ∧
    get_calendar (mk_model
        [mk_zone "1" 20 ZONE_MODE_AUTO [] false
            (some ⟨30, [⟨"MON", [⟨1, SETPOINT_PRESENT, 7, 0, 22, 0⟩]⟩]⟩),
          mk_zone "3" 19 ZONE_MODE_AUTO [] false none]) =
      some ⟨30, [⟨"MON", [⟨1, SETPOINT_PRESENT, 7, 0, 22, 0⟩]⟩]⟩ ∧
    build_full_schedule
        (get_calendar (mk_model
          [mk_zone "1" 20 ZONE_MODE_AUTO [] false
              (some ⟨30, [⟨"MON", [⟨1, SETPOINT_PRESENT, 7, 0, 22, 0⟩]⟩]⟩),
            mk_zone "3" 19 ZONE_MODE_AUTO [] false none]))
        "TUE" [⟨1, SETPOINT_PRESENT, 9, 0, 18, 0⟩] =
      [⟨"MON", [⟨1, SETPOINT_PRESENT, 7, 0, 22, 0⟩]⟩,
        ⟨"TUE", [⟨1, SETPOINT_PRESENT, 9, 0, 18, 0⟩]⟩,
        ⟨"WED", []⟩, ⟨"THU", []⟩, ⟨"FRI", []⟩, ⟨"SAT", []⟩, ⟨"SUN", []⟩] ∧
    schedule_set_value
        (some (mk_model
          [mk_zone "1" 20 ZONE_MODE_AUTO [] false
              (some ⟨30, [⟨"MON", [⟨1, SETPOINT_PRESENT, 7, 0, 22, 0⟩]⟩]⟩),
            mk_zone "3" 19 ZONE_MODE_AUTO [] false none]))
        "TUE" [⟨1, SETPOINT_PRESENT, 9, 0, 18, 0⟩] =
      (mk_model
          [mk_zone "1" 20 ZONE_MODE_AUTO [] false
              (some ⟨30, [⟨"MON", [⟨1, SETPOINT_PRESENT, 7, 0, 22, 0⟩]⟩]⟩),
            mk_zone "3" 19 ZONE_MODE_AUTO [] false none]).zones.map
        (fun z => set_schedule_payload
          (mk_model
            [mk_zone "1" 20 ZONE_MODE_AUTO [] false
                (some ⟨30, [⟨"MON", [⟨1, SETPOINT_PRESENT, 7, 0, 22, 0⟩]⟩]⟩),
              mk_zone "3" 19 ZONE_MODE_AUTO [] false none]) z.id
          (build_full_schedule
            (get_calendar (mk_model
              [mk_zone "1" 20 ZONE_MODE_AUTO [] false
                  (some ⟨30, [⟨"MON", [⟨1, SETPOINT_PRESENT, 7, 0, 22, 0⟩]⟩]⟩),
                mk_zone "3" 19 ZONE_MODE_AUTO [] false none]))
            "TUE" [⟨1, SETPOINT_PRESENT, 9, 0, 18, 0⟩])
          (cal_step (get_calendar (mk_model
            [mk_zone "1" 20 ZONE_MODE_AUTO [] false
                (some ⟨30, [⟨"MON", [⟨1, SETPOINT_PRESENT, 7, 0, 22, 0⟩]⟩]⟩),
              mk_zone "3" 19 ZONE_MODE_AUTO [] false none])))) := by
  have h := C8_schedule_reconciliation (mk_model
    [mk_zone "1" 20 ZONE_MODE_AUTO [] false
        (some ⟨30, [⟨"MON", [⟨1, SETPOINT_PRESENT, 7, 0, 22, 0⟩]⟩]⟩),
      mk_zone "3" 19 ZONE_MODE_AUTO [] false none])
    "TUE" [⟨1, SETPOINT_PRESENT, 9, 0, 18, 0⟩] (by decide)
  exact ⟨by decide, by decide, by decide, h.2.2.2.2.2⟩

/-- C9: `set_off` payload shape — with a cached snapshot, the payload sent
contains one entry per zone, each with mode off, expiration 0, no manual
temperature or calendar key, and a single effective setpoint at the zone's
current temperature plus 1 degree, identically for all zones. -/
theorem C9_set_off_payload (c : ApiClient) (data : ThermostatModel) (httpOk : Bool)
    (body : JsonResp) (h : c.cached_data = some data) :
    (set_off c httpOk body).sent = some (set_off_payload data) ∧
    (set_off_payload data).request_type = REQUEST_TYPE_SETPOINT ∧
    (set_off_payload data).unitCode = data.unit_code ∧
    (set_off_payload data).category = data.category ∧
    (set_off_payload data).zones.length = data.zones.length ∧
    (∀ z ∈ data.zones,
      ({ id := z.id, mode := some ZONE_MODE_OFF, expiration := some 0,
          setpoints := some [⟨SETPOINT_EFFECTIVE, z.temperature + 1⟩] } : ZonePayload) ∈
        (set_off_payload data).zones) ∧
    (∀ e ∈ (set_off_payload data).zones,
      e.mode = some ZONE_MODE_OFF ∧ e.expiration = some 0 ∧
        e.currentManualTemperature = none ∧ e.calendar = none) := by
  refine ⟨?_, rfl, rfl, rfl, ?_, ?_, ?_⟩
  · obtain ⟨pi, cd, ex, pe⟩ := c
    simp only at h
    subst h
    rfl
  · simp [set_off_payload]
  · intro z hz
    exact List.mem_map_of_mem _ hz
  · intro e he
    simp only [set_off_payload, List.mem_map] at he
    obtain ⟨z, _, rfl⟩ := he
    exact ⟨rfl, rfl, rfl, rfl⟩

/-- Witness for C9: the spec's off-command example — zone "1" cached at
temperature 21.5 yields an effective setpoint of 22.5 with mode off. -/
theorem C9_set_off_payload_witness :
    (set_off (ApiClient.mk 10 (some sample_model) (some 100) false) true
        ok_body).sent = some (set_off_payload sample_model) ∧
    ({ id := "1", mode := some ZONE_MODE_OFF, expiration := some 0,
        setpoints := some [⟨SETPOINT_EFFECTIVE, q21_5 + 1⟩] } : ZonePayload) ∈
      (set_off_payload sample_model).zones ∧
    q21_5 + 1 = q22_5 := by
  have h := C9_set_off_payload (ApiClient.mk 10 (some sample_model) (some 100) false)
    sample_model true ok_body rfl
  refine ⟨h.1, ?_, ?_⟩
  · exact h.2.2.2.2.2.1 sample_zone1 (by decide)
  · rw [q21_5, q22_5, Rat.mk'_eq_divInt, Rat.mk'_eq_divInt]
    norm_num [Rat.divInt_eq_div]

/-- C10 counterexample: zone "9" is absent from the cached snapshot, yet
`set_manual_temperature("9", 20)` issues a network call (payload targeting
zone "9") and returns true, and `set_party(zone_id="9")` issues a network
call whose zones list is empty — refuting "returns false without issuing
any network call" for these methods. -/
theorem C10_unknown_zone_counterexample :
    zone_of (some sample_model) "9" = none ∧
    (set_manual_temperature (ApiClient.mk 10 (some sample_model) (some 100) false)
        "9" 20 true ok_body).sent =
      some { request_type := REQUEST_TYPE_SETPOINT, unitCode := "U1",
             category := "heating",
             zones := [{ id := "9", mode := some ZONE_MODE_MANUAL,
                         currentManualTemperature := some 20 }] } ∧
    (set_manual_temperature (ApiClient.mk 10 (some sample_model) (some 100) false)
        "9" 20 true ok_body).success = true ∧
    (set_party (ApiClient.mk 10 (some sample_model) (some 100) false) (some "9") 4
        1000000 true ok_body).sent.isSome = true ∧
    ((set_party (ApiClient.mk 10 (some sample_model) (some 100) false) (some "9") 4
        1000000 true ok_body).sent.map SetPayload.zones) = some [] := by
  refine ⟨rfl, rfl, rfl, rfl, rfl⟩

/-- C10 (amended): only `set_present_absent_temperature` validates the zone
id — for an unknown zone it returns false without a network call.
`set_party` with an unknown (non-empty) zone id still issues a network call
whose payload has an empty zones list, and `set_manual_temperature` issues
its single-zone write for the given id regardless of whether the zone is
present in the cache. -/
theorem C10_unknown_zone_amended (c : ApiClient) (data : ThermostatModel)
    (zid : String) (p a : Option ℚ) (temp : ℚ) (hrs nts : Nat) (hk : Bool)
    (b : JsonResp)
    (hcd : c.cached_data = some data)
    (hz : get_zone_by_id c zid = none) (hne : zid ≠ "") :
    set_present_absent_temperature c zid p a hk b = ⟨false, c, none⟩ ∧
    (set_party c (some zid) hrs nts hk b).sent =
      some (set_party_payload data (some zid) nts) ∧
    (set_party_payload data (some zid) nts).zones = [] ∧
    (set_manual_temperature c zid temp hk b).sent =
      some { request_type := REQUEST_TYPE_SETPOINT, unitCode := data.unit_code,
             category := data.category,
             zones := [{ id := zid, mode := some ZONE_MODE_MANUAL,
                         currentManualTemperature := some temp }] } := by
  have hfind : data.zones.find? (fun z => z.id == zid) = none := by
    unfold get_zone_by_id at hz
    rw [hcd] at hz
    exact hz
  refine ⟨?_, ?_, ?_, ?_⟩
  · obtain ⟨pi, cd, ex, pe⟩ := c
    simp only at hcd
    subst hcd
    unfold set_present_absent_temperature
    simp [hz]
  · obtain ⟨pi, cd, ex, pe⟩ := c
    simp only at hcd
    subst hcd
    rfl
  · have hfilter : data.zones.filter (fun z => z.id == zid) = [] := by
      rw [List.filter_eq_nil]
      intro z hzm
      have := List.find?_eq_none.mp hfind z hzm
      simpa using this
    simp [set_party_payload, hne, hfilter]
  · obtain ⟨pi, cd, ex, pe⟩ := c
    simp only at hcd
    subst hcd
    rfl

/-- Witness for the amended C10 at zone "9" absent from the snapshot. -/
theorem C10_unknown_zone_amended_witness :
    (ApiClient.mk 10 (some sample_model) (some 100) false).cached_data =
      some sample_model ∧
    get_zone_by_id (ApiClient.mk 10 (some sample_model) (some 100) false) "9" =
      none ∧
    ("9" : String) ≠ "" ∧
    (set_present_absent_temperature
        (ApiClient.mk 10 (some sample_model) (some 100) false) "9" (some 22) none
        true ok_body =
      ⟨false, ApiClient.mk 10 (some sample_model) (some 100) false, none⟩ ∧
      (set_party (ApiClient.mk 10 (some sample_model) (some 100) false) (some "9") 4
          1000000 true ok_body).sent =
        some (set_party_payload sample_model (some "9") 1000000) ∧
      (set_party_payload sample_model (some "9") 1000000).zones = [] ∧
      (set_manual_temperature (ApiClient.mk 10 (some sample_model) (some 100) false)
          "9" 22 true ok_body).sent =
        some { request_type := REQUEST_TYPE_SETPOINT, unitCode := "U1",
               category := "heating",
               zones := [{ id := "9", mode := some ZONE_MODE_MANUAL,
                           currentManualTemperature := some 22 }] }) :=
  ⟨rfl, rfl, by decide,
    C10_unknown_zone_amended (ApiClient.mk 10 (some sample_model) (some 100) false)
      sample_model "9" (some 22) none 22 4 1000000 true ok_body rfl rfl (by decide)⟩

end Moneta
